import Mathlib

/-!
Shallow embedding of `src/lottery.py`, a SmartPy (Tezos) lottery contract,
together with theorems checking the natural-language specification against it.

Modelling conventions:
* addresses are `String`s; currency (`sp.TMutez`) and `sp.TNat` are `Nat`
  (Michelson naturals and mutez are unbounded here; mutez subtraction is
  only performed under a guard that makes it exact);
* the SmartPy map `players : sp.TMap(sp.TNat, sp.TAddress)` is an
  association list `List (Nat × String)`; `sp.len` is the number of
  bindings, update replaces an existing key or appends a new one, and
  lookup of a missing key fails the call (as in Michelson);
* each entry point takes the implicit call context (`sp.sender`,
  `sp.amount`, `sp.now`, `sp.balance`) as an explicit `Ctx` record and
  returns `Except String (Storage × List Transfer)`: `.error` models a
  failed (fully rolled-back) transaction, `.ok` carries the post-storage
  and the list of outgoing `sp.send` transfers emitted by the call;
* timestamps are `Nat` (seconds since `sp.timestamp 0`, the epoch the
  source subtracts); `%` by zero and a missing-key access fail the call,
  as the corresponding Michelson instructions do.
-/

/-- A SmartPy map from ticket index to address, as an association list. -/
abbrev SpMap := List (Nat × String)

/-- Lookup in the map: value of the first binding of key `k`, if any. -/
def SpMap.get (m : SpMap) (k : Nat) : Option String :=
  (m.find? (fun p => p.1 == k)).map Prod.snd

/-- SmartPy map assignment `m[k] = v`: replace the binding of `k` if present,
otherwise add a new binding. -/
def SpMap.set (m : SpMap) (k : Nat) (v : String) : SpMap :=
  if m.any (fun p => p.1 == k) then
    m.map (fun p => if p.1 == k then (k, v) else p)
  else
    m ++ [(k, v)]

/-- The contract storage declared in `Lottery.__init__`. -/
structure Storage where
  players : SpMap
  ticket_cost : Nat
  tickets_available : Nat
  max_tickets : Nat
  admin : String
deriving DecidableEq, Repr

/-- The call context the chain supplies to an entry point. -/
structure Ctx where
  sender : String
  amount : Nat
  now : Nat
  balance : Nat
deriving DecidableEq, Repr

/-- An outgoing `sp.send destination amount`. -/
abbrev Transfer := String × Nat

/-- Initial storage from `Lottery.__init__`: no players, ticket cost
`sp.tez 1` (= 1000000 mutez), 5 of 5 tickets available, fixed admin. -/
def initStorage : Storage :=
  { players := []
    ticket_cost := 1000000
    tickets_available := 5
    max_tickets := 5
    admin := "tz1i1THJ4MHiqTWsHNcZNU4YT8tPtqZW5NYE" }

/-- The `sp.while idx.value < can_buy.value` loop of `buy_ticket`:
`n` iterations of `players[sp.len players] = sender`. -/
def buyLoop (m : SpMap) (sender : String) : Nat → SpMap
  | 0 => m
  | n + 1 => buyLoop (SpMap.set m m.length sender) sender n

/-- Entry point `buy_ticket` (`src/lottery.py` lines 13-45). -/
def buy_ticket (s : Storage) (ctx : Ctx) (num_tickets : Nat) :
    Except String (Storage × List Transfer) :=
  if s.tickets_available > 0 then
    -- can_buy: requested count, clamped to the available tickets
    let can_buy := if num_tickets > s.tickets_available then s.tickets_available
                   else num_tickets
    let total_cost := can_buy * s.ticket_cost
    if ctx.amount ≥ total_cost then
      let players' := buyLoop s.players ctx.sender can_buy
      let extra := ctx.amount - total_cost
      .ok ({ s with players := players'
                    tickets_available := s.tickets_available - can_buy },
           if extra > 0 then [(ctx.sender, extra)] else [])
    else .error "INVALID AMOUNT"
  else .error "NO TICKETS AVAILABLE"

/-- Entry point `change_ticket_cost` (`src/lottery.py` lines 48-55). -/
def change_ticket_cost (s : Storage) (ctx : Ctx) (new_ticket_cost : Nat) :
    Except String (Storage × List Transfer) :=
  if ctx.sender = s.admin then
    if s.tickets_available = s.max_tickets then
      .ok ({ s with ticket_cost := new_ticket_cost }, [])
    else .error "GAME ALREADY STARTED"
  else .error "NOT AUTHORIZED"

/-- Entry point `change_max_tickets` (`src/lottery.py` lines 58-66):
sets `max_tickets` to the argument, then `tickets_available` to the
(just-updated) `max_tickets`. -/
def change_max_tickets (s : Storage) (ctx : Ctx) (new_max_tickets : Nat) :
    Except String (Storage × List Transfer) :=
  if ctx.sender = s.admin then
    if s.tickets_available = s.max_tickets then
      .ok ({ s with max_tickets := new_max_tickets
                    tickets_available := new_max_tickets }, [])
    else .error "GAME ALREADY STARTED"
  else .error "NOT AUTHORIZED"

/-- Entry point `end_game` (`src/lottery.py` lines 69-87).
`sp.as_nat (sp.now - sp.timestamp 0) % max_tickets` is `now % max_tickets`;
Michelson fails the call on `%` by zero and on a missing map key, which the
two `.error` branches model. -/
def end_game (s : Storage) (ctx : Ctx) :
    Except String (Storage × List Transfer) :=
  if s.tickets_available = 0 then
    if s.max_tickets = 0 then .error "MOD BY ZERO"
    else
      let winner_id := ctx.now % s.max_tickets
      match SpMap.get s.players winner_id with
      | some winner_address =>
          .ok ({ s with players := []
                        tickets_available := s.max_tickets },
               [(winner_address, ctx.balance)])
      | none => .error "MISSING KEY"
  else .error "GAME IS YET TO END"

/-- The four operations of the contract, for theorems quantifying over all
entry points at once. -/
inductive Op where
  | buy_ticket : Nat → Op
  | change_ticket_cost : Nat → Op
  | change_max_tickets : Nat → Op
  | end_game : Op
deriving DecidableEq, Repr

/-- Dispatch an operation to its entry point. -/
def step (s : Storage) (ctx : Ctx) : Op → Except String (Storage × List Transfer)
  | .buy_ticket n => buy_ticket s ctx n
  | .change_ticket_cost c => change_ticket_cost s ctx c
  | .change_max_tickets m => change_max_tickets s ctx m
  | .end_game => end_game s ctx

/-- The `players` ledger is dense: its keys are exactly `0, 1, …, len-1`
in order, as the spec's data model declares ("dense integers starting at 0,
assigned in purchase order"). -/
def DenseMap (m : SpMap) : Prop := m.map Prod.fst = List.range m.length

/-- The data-model invariants of the spec on the storage: a dense ledger,
`tickets_available ≤ max_tickets`, and `|players| = max_tickets -
tickets_available`. -/
def LotteryInv (s : Storage) : Prop :=
  DenseMap s.players ∧
  s.tickets_available ≤ s.max_tickets ∧
  s.players.length = s.max_tickets - s.tickets_available

instance (m : SpMap) : Decidable (DenseMap m) := by
  unfold DenseMap; infer_instance

instance (s : Storage) : Decidable (LotteryInv s) := by
  unfold LotteryInv; exact instDecidableAnd

/-- Writing at key `sp.len m` on a dense ledger appends a new binding. -/
theorem SpMap.set_len_eq_append (m : SpMap) (v : String) (hm : DenseMap m) :
    SpMap.set m m.length v = m ++ [(m.length, v)] := by
  unfold SpMap.set
  have hany : m.any (fun p => p.1 == m.length) = false := by
    rw [List.any_eq_false]
    intro p hp
    simp only [beq_iff_eq]
    intro hpk
    have : p.1 ∈ m.map Prod.fst := List.mem_map.mpr ⟨p, hp, rfl⟩
    rw [hm, hpk, List.mem_range] at this
    omega
  rw [hany]
  simp

/-- Appending the next dense binding preserves density. -/
theorem DenseMap.append (m : SpMap) (v : String) (hm : DenseMap m) :
    DenseMap (m ++ [(m.length, v)]) := by
  unfold DenseMap at *
  simp [List.range_succ, hm]

/-- Closed form of the purchase loop on a dense ledger: it appends
`n` bindings for `sender` at the next `n` indices. -/
theorem buyLoop_eq (sender : String) (n : Nat) (m : SpMap) (hm : DenseMap m) :
    buyLoop m sender n =
      m ++ (List.range' m.length n).map (fun k => (k, sender)) := by
  induction n generalizing m with
  | zero => simp [buyLoop]
  | succ n ih =>
      rw [buyLoop, SpMap.set_len_eq_append m sender hm,
        ih _ (DenseMap.append m sender hm)]
      simp [List.range'_succ, List.range']

/-- The purchase loop preserves density of the ledger. -/
theorem denseMap_buyLoop (sender : String) (n : Nat) (m : SpMap) (hm : DenseMap m) :
    DenseMap (buyLoop m sender n) := by
  induction n generalizing m with
  | zero => simpa [buyLoop] using hm
  | succ n ih =>
      rw [buyLoop, SpMap.set_len_eq_append m sender hm]
      exact ih _ (DenseMap.append m sender hm)

/-- The purchase loop grows the ledger by exactly `n` bindings. -/
theorem buyLoop_length (sender : String) (n : Nat) (m : SpMap) (hm : DenseMap m) :
    (buyLoop m sender n).length = m.length + n := by
  rw [buyLoop_eq sender n m hm]
  simp

/-- On a dense ledger, lookup of any index below the size succeeds. -/
theorem SpMap.get_isSome_of_lt (m : SpMap) (k : Nat) (hm : DenseMap m)
    (hk : k < m.length) : (SpMap.get m k).isSome := by
  unfold SpMap.get
  have hmem : k ∈ m.map Prod.fst := by rw [hm]; exact List.mem_range.mpr hk
  rcases List.mem_map.mp hmem with ⟨p, hp, hfst⟩
  have hfind : (m.find? (fun p => p.1 == k)).isSome :=
    List.find?_isSome.mpr ⟨p, hp, by simpa [beq_iff_eq] using hfst⟩
  rcases Option.isSome_iff_exists.mp hfind with ⟨q, hq⟩
  rw [hq]
  rfl

/-- Inversion for a successful `buy_ticket`: the guards held and the result
has the stated shape, with the granted count `min num_tickets
tickets_available` (the source's clamp). -/
theorem buy_ticket_ok (s : Storage) (ctx : Ctx) (n : Nat) (s' : Storage)
    (tr : List Transfer) (h : buy_ticket s ctx n = .ok (s', tr)) :
    0 < s.tickets_available ∧
    min n s.tickets_available * s.ticket_cost ≤ ctx.amount ∧
    s' = { s with
            players := buyLoop s.players ctx.sender (min n s.tickets_available)
            tickets_available :=
              s.tickets_available - min n s.tickets_available } ∧
    tr = (if 0 < ctx.amount - min n s.tickets_available * s.ticket_cost then
            [(ctx.sender,
              ctx.amount - min n s.tickets_available * s.ticket_cost)]
          else []) := by
  by_cases hclamp : n > s.tickets_available
  · have hmin : min n s.tickets_available = s.tickets_available := by omega
    simp only [buy_ticket, hclamp, if_true, gt_iff_lt] at h
    rw [hmin]
    split at h
    · split at h
      · simp only [Except.ok.injEq, Prod.mk.injEq] at h
        refine ⟨by assumption, by omega, h.1.symm, h.2.symm⟩
      · simp at h
    · simp at h
  · have hmin : min n s.tickets_available = n := by omega
    simp only [buy_ticket, hclamp, if_false, gt_iff_lt] at h
    rw [hmin]
    split at h
    · split at h
      · simp only [Except.ok.injEq, Prod.mk.injEq] at h
        refine ⟨by assumption, by omega, h.1.symm, h.2.symm⟩
      · simp at h
    · simp at h

/-- Inversion for a successful `change_ticket_cost`. -/
theorem change_ticket_cost_ok (s : Storage) (ctx : Ctx) (c : Nat)
    (s' : Storage) (tr : List Transfer)
    (h : change_ticket_cost s ctx c = .ok (s', tr)) :
    ctx.sender = s.admin ∧ s.tickets_available = s.max_tickets ∧
    s' = { s with ticket_cost := c } ∧ tr = [] := by
  unfold change_ticket_cost at h
  split at h
  · split at h
    · simp only [Except.ok.injEq, Prod.mk.injEq] at h
      exact ⟨by assumption, by assumption, h.1.symm, h.2.symm⟩
    · simp at h
  · simp at h

/-- Inversion for a successful `change_max_tickets`. -/
theorem change_max_tickets_ok (s : Storage) (ctx : Ctx) (m : Nat)
    (s' : Storage) (tr : List Transfer)
    (h : change_max_tickets s ctx m = .ok (s', tr)) :
    ctx.sender = s.admin ∧ s.tickets_available = s.max_tickets ∧
    s' = { s with max_tickets := m, tickets_available := m } ∧ tr = [] := by
  unfold change_max_tickets at h
  split at h
  · split at h
    · simp only [Except.ok.injEq, Prod.mk.injEq] at h
      exact ⟨by assumption, by assumption, h.1.symm, h.2.symm⟩
    · simp at h
  · simp at h

/-- Inversion for a successful `end_game`: all tickets were sold, the
winner lookup succeeded, the whole balance went to the winner, and the
round was reset. -/
theorem end_game_ok (s : Storage) (ctx : Ctx) (s' : Storage)
    (tr : List Transfer) (h : end_game s ctx = .ok (s', tr)) :
    s.tickets_available = 0 ∧ 0 < s.max_tickets ∧
    ∃ w, SpMap.get s.players (ctx.now % s.max_tickets) = some w ∧
      s' = { s with players := [], tickets_available := s.max_tickets } ∧
      tr = [(w, ctx.balance)] := by
  unfold end_game at h
  split at h
  · split at h
    · simp at h
    · cases hw : SpMap.get s.players (ctx.now % s.max_tickets) with
      | none =>
          simp only [hw] at h
          exact absurd h (by simp)
      | some w =>
          simp only [hw, Except.ok.injEq, Prod.mk.injEq] at h
          refine ⟨by assumption, by omega, w, rfl, h.1.symm, h.2.symm⟩
  · simp at h

/-- C1: for every successful call to any of the four operations, the
post-state satisfies `tickets_available ≤ max_tickets` and
`|players| = max_tickets - tickets_available`, provided the pre-state
satisfied the data-model invariants. -/
theorem lottery_invariants_preserved (s : Storage) (ctx : Ctx) (op : Op)
    (s' : Storage) (tr : List Transfer) (hInv : LotteryInv s)
    (h : step s ctx op = .ok (s', tr)) :
    s'.tickets_available ≤ s'.max_tickets ∧
    s'.players.length = s'.max_tickets - s'.tickets_available := by
  obtain ⟨hd, hle, hlen⟩ := hInv
  cases op with
  | buy_ticket n =>
      simp only [step] at h
      obtain ⟨hpos, hamt, hs, -⟩ := buy_ticket_ok s ctx n s' tr h
      subst hs
      refine ⟨?_, ?_⟩ <;>
        simp [buyLoop_length ctx.sender _ s.players hd] <;> omega
  | change_ticket_cost c =>
      simp only [step] at h
      obtain ⟨-, -, hs, -⟩ := change_ticket_cost_ok s ctx c s' tr h
      subst hs
      exact ⟨hle, hlen⟩
  | change_max_tickets m =>
      simp only [step] at h
      obtain ⟨-, hfresh, hs, -⟩ := change_max_tickets_ok s ctx m s' tr h
      subst hs
      refine ⟨Nat.le_refl _, ?_⟩
      show s.players.length = m - m
      omega
  | end_game =>
      simp only [step] at h
      obtain ⟨h0, hmax, w, hw, hs, -⟩ := end_game_ok s ctx s' tr h
      subst hs
      refine ⟨?_, ?_⟩ <;> simp

/-- Post-state of `buy_ticket 2` from the initial storage, for the witness
of the invariant-preservation theorem. -/
def c1Post : Storage :=
  { players := [(0, "b"), (1, "b")], ticket_cost := 1000000,
    tickets_available := 3, max_tickets := 5,
    admin := "tz1i1THJ4MHiqTWsHNcZNU4YT8tPtqZW5NYE" }

/-- C1 witness: the preservation theorem applied at a concrete purchase
from the initial storage. -/
theorem lottery_invariants_preserved_app :
    c1Post.tickets_available ≤ c1Post.max_tickets ∧
    c1Post.players.length = c1Post.max_tickets - c1Post.tickets_available :=
  lottery_invariants_preserved initStorage ⟨"b", 2000000, 0, 0⟩
    (Op.buy_ticket 2) c1Post [] (by decide) (by rfl)

/-- C2: for every call to `end_game` with `tickets_available = 0` in a state
satisfying the data-model invariants (which declare `max_tickets ≥ 1`), the
winner index `now % max_tickets` lies in `[0, max_tickets)`, the lookup
`players[winner_index]` succeeds, and the call succeeds — no missing-key
case is reachable. -/
theorem end_game_lookup_safe (s : Storage) (ctx : Ctx) (hInv : LotteryInv s)
    (hmax : 1 ≤ s.max_tickets) (h0 : s.tickets_available = 0) :
    ctx.now % s.max_tickets < s.max_tickets ∧
    (SpMap.get s.players (ctx.now % s.max_tickets)).isSome ∧
    ∃ s' tr, end_game s ctx = .ok (s', tr) := by
  obtain ⟨hd, hle, hlen⟩ := hInv
  have hlt : ctx.now % s.max_tickets < s.max_tickets := Nat.mod_lt _ (by omega)
  have hsome : (SpMap.get s.players (ctx.now % s.max_tickets)).isSome :=
    SpMap.get_isSome_of_lt _ _ hd (by omega)
  refine ⟨hlt, hsome, ?_⟩
  rcases Option.isSome_iff_exists.mp hsome with ⟨w, hw⟩
  refine ⟨{ s with players := [], tickets_available := s.max_tickets },
    [(w, ctx.balance)], ?_⟩
  unfold end_game
  rw [if_pos h0, if_neg (by omega)]
  simp only [hw]

/-- A fully sold two-ticket round, for the winner-lookup witness. -/
def c2State : Storage :=
  { players := [(0, "a"), (1, "b")], ticket_cost := 1000000,
    tickets_available := 0, max_tickets := 2,
    admin := "tz1i1THJ4MHiqTWsHNcZNU4YT8tPtqZW5NYE" }

/-- C2 witness: the lookup-safety theorem applied at a concrete fully sold
round with timestamp 5. -/
theorem end_game_lookup_safe_app :
    (5 : Nat) % c2State.max_tickets < c2State.max_tickets ∧
    (SpMap.get c2State.players (5 % c2State.max_tickets)).isSome ∧
    ∃ s' tr, end_game c2State ⟨"x", 0, 5, 100⟩ = .ok (s', tr) :=
  end_game_lookup_safe c2State ⟨"x", 0, 5, 100⟩ (by decide) (by decide)
    (by decide)

/-- C3: a `buy_ticket` request exceeding `tickets_available` (with supply
left and a sufficient attached amount) does not error, appends exactly
`tickets_available` entries for the caller, and reduces
`tickets_available` to 0. -/
theorem buy_ticket_clamps (s : Storage) (ctx : Ctx) (n : Nat)
    (hd : DenseMap s.players) (hover : n > s.tickets_available)
    (hpos : 0 < s.tickets_available)
    (hamt : s.tickets_available * s.ticket_cost ≤ ctx.amount) :
    ∃ s' tr, buy_ticket s ctx n = .ok (s', tr) ∧
      s'.players = s.players ++
        (List.range' s.players.length s.tickets_available).map
          (fun k => (k, ctx.sender)) ∧
      s'.players.length = s.players.length + s.tickets_available ∧
      s'.tickets_available = 0 := by
  unfold buy_ticket
  rw [if_pos hpos]
  simp only [if_pos hover, ge_iff_le]
  rw [if_pos hamt]
  refine ⟨_, _, rfl, ?_, ?_, ?_⟩
  · exact buyLoop_eq ctx.sender s.tickets_available s.players hd
  · exact buyLoop_length ctx.sender s.tickets_available s.players hd
  · show s.tickets_available - s.tickets_available = 0
    omega

/-- A partially sold round (1 of 3 tickets sold), for the clamping
witness. -/
def c3State : Storage :=
  { players := [(0, "a")], ticket_cost := 1000000,
    tickets_available := 2, max_tickets := 3,
    admin := "tz1i1THJ4MHiqTWsHNcZNU4YT8tPtqZW5NYE" }

/-- C3 witness: the clamping theorem applied at a concrete over-request of
6 tickets with 2 remaining. -/
theorem buy_ticket_clamps_app :
    ∃ s' tr, buy_ticket c3State ⟨"z", 6000000, 0, 0⟩ 6 = .ok (s', tr) ∧
      s'.players = c3State.players ++
        (List.range' c3State.players.length c3State.tickets_available).map
          (fun k => (k, "z")) ∧
      s'.players.length = c3State.players.length + c3State.tickets_available ∧
      s'.tickets_available = 0 :=
  buy_ticket_clamps c3State ⟨"z", 6000000, 0, 0⟩ 6 (by decide) (by decide)
    (by decide) (by decide)

/-- A round with 3 of 5 tickets already sold, for the refund
counterexample. -/
def c4State : Storage :=
  { players := [(0, "b"), (1, "b"), (2, "b")], ticket_cost := 1000000,
    tickets_available := 2, max_tickets := 5,
    admin := "tz1i1THJ4MHiqTWsHNcZNU4YT8tPtqZW5NYE" }

/-- C4 counterexample: `buy_ticket 5` with attached amount
`5000000 ≥ 5·ticket_cost` succeeds (clamped to 2 tickets) but refunds
3000000, not `5000000 - 5·ticket_cost = 0` as the claim requires. -/
theorem buy_ticket_refund_claim_cex :
    5 * c4State.ticket_cost ≤ 5000000 ∧
    buy_ticket c4State ⟨"z", 5000000, 0, 0⟩ 5 =
      .ok ({ players := [(0, "b"), (1, "b"), (2, "b"), (3, "z"), (4, "z")],
             ticket_cost := 1000000, tickets_available := 0, max_tickets := 5,
             admin := "tz1i1THJ4MHiqTWsHNcZNU4YT8tPtqZW5NYE" },
           [("z", 3000000)]) ∧
    (3000000 : Nat) ≠ 5000000 - 5 * c4State.ticket_cost :=
  ⟨by decide, by rfl, by decide⟩

/-- C4 (amended): every successful `buy_ticket n` refunds exactly
`attached_amount - granted·ticket_cost` where
`granted = min n tickets_available`, via a single transfer to the caller
when the difference is positive and no transfer when it is zero. -/
theorem buy_ticket_refund_exact (s : Storage) (ctx : Ctx) (n : Nat)
    (s' : Storage) (tr : List Transfer)
    (h : buy_ticket s ctx n = .ok (s', tr)) :
    tr = (if 0 < ctx.amount - min n s.tickets_available * s.ticket_cost then
            [(ctx.sender,
              ctx.amount - min n s.tickets_available * s.ticket_cost)]
          else []) :=
  (buy_ticket_ok s ctx n s' tr h).2.2.2

/-- C4 witness: the exact-refund theorem applied at a concrete purchase of
one ticket for 2000000 mutez. -/
theorem buy_ticket_refund_exact_app :
    [("b", (1000000 : Nat))] =
      (if 0 < 2000000 - min 1 initStorage.tickets_available *
            initStorage.ticket_cost then
        [("b", 2000000 - min 1 initStorage.tickets_available *
            initStorage.ticket_cost)]
      else []) :=
  buy_ticket_refund_exact initStorage ⟨"b", 2000000, 0, 0⟩ 1
    { players := [(0, "b")], ticket_cost := 1000000, tickets_available := 4,
      max_tickets := 5, admin := "tz1i1THJ4MHiqTWsHNcZNU4YT8tPtqZW5NYE" }
    [("b", 1000000)] (by rfl)

/-- C5: `buy_ticket` fails exactly when `tickets_available = 0` (checked
first, error "NO TICKETS AVAILABLE") or the attached amount is below
`granted·ticket_cost` (error "INVALID AMOUNT"); a failure returns an
`.error`, so no storage field is mutated and no transfer is emitted. -/
theorem buy_ticket_error_cases (s : Storage) (ctx : Ctx) (n : Nat) :
    ((∃ e, buy_ticket s ctx n = .error e) ↔
      s.tickets_available = 0 ∨
        ctx.amount < min n s.tickets_available * s.ticket_cost) ∧
    (s.tickets_available = 0 →
      buy_ticket s ctx n = .error "NO TICKETS AVAILABLE") ∧
    (0 < s.tickets_available →
      ctx.amount < min n s.tickets_available * s.ticket_cost →
      buy_ticket s ctx n = .error "INVALID AMOUNT") := by
  by_cases h0 : 0 < s.tickets_available
  · have hcb : (if n > s.tickets_available then s.tickets_available else n) =
        min n s.tickets_available := by
      split <;> omega
    by_cases hamt : ctx.amount ≥ min n s.tickets_available * s.ticket_cost
    · have hbt :
          ∃ s' tr, buy_ticket s ctx n = .ok (s', tr) := by
        unfold buy_ticket
        rw [if_pos h0]
        simp only [hcb]
        rw [if_pos hamt]
        exact ⟨_, _, rfl⟩
      obtain ⟨s', tr, hbt⟩ := hbt
      refine ⟨?_, ?_, ?_⟩
      · constructor
        · rintro ⟨e, he⟩
          rw [hbt] at he
          simp at he
        · intro hcase
          omega
      · intro hz
        omega
      · intro _ hlt
        omega
    · have hbt : buy_ticket s ctx n = .error "INVALID AMOUNT" := by
        unfold buy_ticket
        rw [if_pos h0]
        simp only [hcb]
        rw [if_neg hamt]
      refine ⟨?_, ?_, ?_⟩
      · constructor
        · intro _
          right
          omega
        · intro _
          exact ⟨_, hbt⟩
      · intro hz
        omega
      · intro _ _
        exact hbt
  · have hz : s.tickets_available = 0 := by omega
    have hbt : buy_ticket s ctx n = .error "NO TICKETS AVAILABLE" := by
      unfold buy_ticket
      rw [if_neg h0]
    exact ⟨⟨fun _ => Or.inl hz, fun _ => ⟨_, hbt⟩⟩, fun _ => hbt,
      fun hp _ => absurd hz (by omega)⟩

/-- A sold-out round, for the no-tickets error witness. -/
def c5State : Storage :=
  { players := [(0, "a"), (1, "b")], ticket_cost := 1000000,
    tickets_available := 0, max_tickets := 2,
    admin := "tz1i1THJ4MHiqTWsHNcZNU4YT8tPtqZW5NYE" }

/-- C5 witness: the error-case theorem applied at a sold-out round and at
an underfunded purchase from the initial storage. -/
theorem buy_ticket_error_cases_app :
    buy_ticket c5State ⟨"j", 1000000, 0, 0⟩ 1 =
      .error "NO TICKETS AVAILABLE" ∧
    buy_ticket initStorage ⟨"b", 2000000, 0, 0⟩ 3 = .error "INVALID AMOUNT" :=
  ⟨(buy_ticket_error_cases c5State ⟨"j", 1000000, 0, 0⟩ 1).2.1 (by decide),
   (buy_ticket_error_cases initStorage ⟨"b", 2000000, 0, 0⟩ 3).2.2
     (by decide) (by decide)⟩

/-- C6: `change_ticket_cost` and `change_max_tickets` succeed exactly when
the caller is the admin and the round is fresh
(`tickets_available = max_tickets`); a non-admin caller gets
"NOT AUTHORIZED" (checked first), an admin on a started round gets
"GAME ALREADY STARTED"; a failure returns an `.error`, leaving the
storage unchanged. -/
theorem admin_ops_error_cases (s : Storage) (ctx : Ctx) (c m : Nat) :
    ((∃ r, change_ticket_cost s ctx c = .ok r) ↔
      ctx.sender = s.admin ∧ s.tickets_available = s.max_tickets) ∧
    (ctx.sender ≠ s.admin →
      change_ticket_cost s ctx c = .error "NOT AUTHORIZED") ∧
    (ctx.sender = s.admin → s.tickets_available ≠ s.max_tickets →
      change_ticket_cost s ctx c = .error "GAME ALREADY STARTED") ∧
    ((∃ r, change_max_tickets s ctx m = .ok r) ↔
      ctx.sender = s.admin ∧ s.tickets_available = s.max_tickets) ∧
    (ctx.sender ≠ s.admin →
      change_max_tickets s ctx m = .error "NOT AUTHORIZED") ∧
    (ctx.sender = s.admin → s.tickets_available ≠ s.max_tickets →
      change_max_tickets s ctx m = .error "GAME ALREADY STARTED") := by
  unfold change_ticket_cost change_max_tickets
  by_cases hadmin : ctx.sender = s.admin
  · by_cases hfresh : s.tickets_available = s.max_tickets
    · rw [if_pos hadmin, if_pos hfresh]
      refine ⟨⟨fun _ => ⟨hadmin, hfresh⟩, fun _ => ⟨_, rfl⟩⟩,
        fun hna => absurd hadmin hna, fun _ hnf => absurd hfresh hnf, ?_⟩
      rw [if_pos hadmin, if_pos hfresh]
      exact ⟨⟨fun _ => ⟨hadmin, hfresh⟩, fun _ => ⟨_, rfl⟩⟩,
        fun hna => absurd hadmin hna, fun _ hnf => absurd hfresh hnf⟩
    · rw [if_pos hadmin, if_neg hfresh]
      refine ⟨⟨fun hex => ?_, fun hc => absurd hc.2 hfresh⟩,
        fun hna => absurd hadmin hna, fun _ _ => rfl, ?_⟩
      · obtain ⟨r, hr⟩ := hex
        simp at hr
      rw [if_pos hadmin, if_neg hfresh]
      refine ⟨⟨fun hex => ?_, fun hc => absurd hc.2 hfresh⟩,
        fun hna => absurd hadmin hna, fun _ _ => rfl⟩
      obtain ⟨r, hr⟩ := hex
      simp at hr
  · rw [if_neg hadmin]
    refine ⟨⟨fun hex => ?_, fun hc => absurd hc.1 hadmin⟩,
      fun _ => rfl, fun ha => absurd ha hadmin, ?_⟩
    · obtain ⟨r, hr⟩ := hex
      simp at hr
    rw [if_neg hadmin]
    refine ⟨⟨fun hex => ?_, fun hc => absurd hc.1 hadmin⟩,
      fun _ => rfl, fun ha => absurd ha hadmin⟩
    obtain ⟨r, hr⟩ := hex
    simp at hr

/-- A started round (1 of 3 tickets sold), for the already-started error
witness. -/
def c6State : Storage :=
  { players := [(0, "a")], ticket_cost := 1000000,
    tickets_available := 2, max_tickets := 3,
    admin := "tz1i1THJ4MHiqTWsHNcZNU4YT8tPtqZW5NYE" }

/-- C6 witness: the admin-operation error theorem applied at a non-admin
caller and at an admin caller on a started round. -/
theorem admin_ops_error_cases_app :
    change_ticket_cost initStorage ⟨"alice", 0, 0, 0⟩ 2000000 =
      .error "NOT AUTHORIZED" ∧
    change_max_tickets c6State
      ⟨"tz1i1THJ4MHiqTWsHNcZNU4YT8tPtqZW5NYE", 0, 0, 0⟩ 15 =
      .error "GAME ALREADY STARTED" :=
  ⟨(admin_ops_error_cases initStorage ⟨"alice", 0, 0, 0⟩ 2000000 15).2.1
     (by decide),
   (admin_ops_error_cases c6State
     ⟨"tz1i1THJ4MHiqTWsHNcZNU4YT8tPtqZW5NYE", 0, 0, 0⟩ 2000000 15).2.2.2.2.2
     (by decide) (by decide)⟩

/-- C7: every successful `end_game` leaves `players` empty and
`tickets_available = max_tickets`, with `ticket_cost` and `max_tickets`
unchanged, and transfers the entire held balance to the winner. -/
theorem end_game_resets (s : Storage) (ctx : Ctx) (s' : Storage)
    (tr : List Transfer) (h : end_game s ctx = .ok (s', tr)) :
    s'.players = [] ∧ s'.tickets_available = s'.max_tickets ∧
    s'.ticket_cost = s.ticket_cost ∧ s'.max_tickets = s.max_tickets ∧
    ∃ w, tr = [(w, ctx.balance)] := by
  obtain ⟨h0, hmax, w, hw, hs, htr⟩ := end_game_ok s ctx s' tr h
  subst hs
  exact ⟨rfl, rfl, rfl, rfl, w, htr⟩

/-- A fully sold three-ticket round, for the reset witness. -/
def c7State : Storage :=
  { players := [(0, "a"), (1, "b"), (2, "c")], ticket_cost := 1000000,
    tickets_available := 0, max_tickets := 3,
    admin := "tz1i1THJ4MHiqTWsHNcZNU4YT8tPtqZW5NYE" }

/-- Post-state of `end_game` from `c7State`, for the reset witness. -/
def c7Post : Storage :=
  { players := [], ticket_cost := 1000000,
    tickets_available := 3, max_tickets := 3,
    admin := "tz1i1THJ4MHiqTWsHNcZNU4YT8tPtqZW5NYE" }

/-- C7 witness: the reset theorem applied at a concrete fully sold round;
timestamp 7 picks index `7 % 3 = 1`, player "b", who receives the whole
balance of 500. -/
theorem end_game_resets_app :
    c7Post.players = [] ∧ c7Post.tickets_available = c7Post.max_tickets ∧
    c7Post.ticket_cost = c7State.ticket_cost ∧
    c7Post.max_tickets = c7State.max_tickets ∧
    ∃ w, [("b", (500 : Nat))] = [(w, 500)] :=
  end_game_resets c7State ⟨"x", 0, 7, 500⟩ c7Post [("b", 500)] (by rfl)

/-- C8 counterexample: the admin can set the ticket cost to 0 mutez on a
fresh round — the call succeeds and leaves `ticket_cost` non-positive,
so positivity of `ticket_cost` is not an invariant of the code. -/
theorem ticket_cost_positive_cex :
    change_ticket_cost initStorage
      ⟨"tz1i1THJ4MHiqTWsHNcZNU4YT8tPtqZW5NYE", 0, 0, 0⟩ 0 =
      .ok ({ initStorage with ticket_cost := 0 }, []) ∧
    ¬ 0 < ({ initStorage with ticket_cost := 0 } : Storage).ticket_cost :=
  ⟨by rfl, by decide⟩

/-- C8 (amended): `ticket_cost > 0` is preserved by every successful
operation other than `change_ticket_cost`; a successful
`change_ticket_cost c` sets `ticket_cost = c`, so positivity is preserved
exactly when the new cost `c` is positive. -/
theorem ticket_cost_positive_preserved (s : Storage) (ctx : Ctx) (op : Op)
    (s' : Storage) (tr : List Transfer) (h : step s ctx op = .ok (s', tr))
    (hpos : 0 < s.ticket_cost)
    (hop : ∀ c, op = Op.change_ticket_cost c → 0 < c) :
    0 < s'.ticket_cost := by
  cases op with
  | buy_ticket n =>
      simp only [step] at h
      obtain ⟨-, -, hs, -⟩ := buy_ticket_ok s ctx n s' tr h
      subst hs
      exact hpos
  | change_ticket_cost c =>
      simp only [step] at h
      obtain ⟨-, -, hs, -⟩ := change_ticket_cost_ok s ctx c s' tr h
      subst hs
      exact hop c rfl
  | change_max_tickets m =>
      simp only [step] at h
      obtain ⟨-, -, hs, -⟩ := change_max_tickets_ok s ctx m s' tr h
      subst hs
      exact hpos
  | end_game =>
      simp only [step] at h
      obtain ⟨-, -, w, hw, hs, -⟩ := end_game_ok s ctx s' tr h
      subst hs
      exact hpos

/-- C8 witness: the positivity-preservation theorem applied at a concrete
admin change of the ticket cost to 2000000 mutez. -/
theorem ticket_cost_positive_preserved_app :
    0 < ({ initStorage with ticket_cost := 2000000 } : Storage).ticket_cost :=
  ticket_cost_positive_preserved initStorage
    ⟨"tz1i1THJ4MHiqTWsHNcZNU4YT8tPtqZW5NYE", 0, 0, 0⟩
    (Op.change_ticket_cost 2000000)
    { initStorage with ticket_cost := 2000000 } [] (by rfl) (by decide)
    (fun c hc => by injection hc with h; omega)

/-- C9: `buy_ticket 0` with tickets remaining succeeds as a no-op
purchase: the storage is returned unchanged, the total cost is zero, and
the full attached amount flows back to the caller (as one transfer when
positive, as no transfer when zero). -/
theorem buy_ticket_zero_noop (s : Storage) (ctx : Ctx)
    (hpos : 0 < s.tickets_available) :
    buy_ticket s ctx 0 = .ok (s,
      if 0 < ctx.amount then [(ctx.sender, ctx.amount)] else []) := by
  unfold buy_ticket
  rw [if_pos hpos]
  simp [buyLoop, Nat.not_lt_zero]

/-- C9 witness: the no-op purchase theorem applied at the initial storage
with 7 mutez attached. -/
theorem buy_ticket_zero_noop_app :
    buy_ticket initStorage ⟨"b", 7, 0, 0⟩ 0 =
      .ok (initStorage, if 0 < (7 : Nat) then [("b", 7)] else []) :=
  buy_ticket_zero_noop initStorage ⟨"b", 7, 0, 0⟩ (by decide)

/-- C10: `change_max_tickets` imposes no lower bound on its argument: on a
fresh round with an empty ledger, the admin calling
`change_max_tickets 0` succeeds, setting `max_tickets = 0` and
`tickets_available = 0` while `players` stays empty — a state in which
`end_game`'s precondition `tickets_available = 0` holds over an empty
ledger. -/
theorem change_max_tickets_zero (s : Storage) (ctx : Ctx)
    (hadmin : ctx.sender = s.admin)
    (hfresh : s.tickets_available = s.max_tickets)
    (hempty : s.players = []) :
    change_max_tickets s ctx 0 =
      .ok ({ s with max_tickets := 0, tickets_available := 0 }, []) ∧
    ({ s with max_tickets := 0, tickets_available := 0 } : Storage).players
      = [] ∧
    ({ s with max_tickets := 0,
              tickets_available := 0 } : Storage).tickets_available = 0 := by
  refine ⟨?_, hempty, rfl⟩
  unfold change_max_tickets
  rw [if_pos hadmin, if_pos hfresh]

/-- C10 witness: the zero-capacity theorem applied at the initial
storage with the admin as caller. -/
theorem change_max_tickets_zero_app :
    change_max_tickets initStorage
      ⟨"tz1i1THJ4MHiqTWsHNcZNU4YT8tPtqZW5NYE", 0, 0, 0⟩ 0 =
      .ok ({ initStorage with max_tickets := 0, tickets_available := 0 },
           []) ∧
    ({ initStorage with max_tickets := 0,
                        tickets_available := 0 } : Storage).players = [] ∧
    ({ initStorage with max_tickets := 0,
                        tickets_available := 0 } : Storage).tickets_available
      = 0 :=
  change_max_tickets_zero initStorage
    ⟨"tz1i1THJ4MHiqTWsHNcZNU4YT8tPtqZW5NYE", 0, 0, 0⟩ (by rfl) (by rfl)
    (by rfl)
